import Mathlib

/-!
Verification development for the basket_enhanced repository.

The backend (TypeScript) keeps in-memory registries of assets, baskets,
chains and mint records, expands baskets into proportional per-asset
amounts, and drives mint records through a pending/completed/failed
lifecycle.  This file gives a shallow embedding of the relevant services:

* JavaScript number arithmetic (IEEE-754 binary64) is modelled on `ℚ`:
  every finite double is a rational, and each arithmetic step of the
  source is followed by `roundF64`, correct rounding to 53 significant
  bits (round to nearest, ties to even).  The model covers the normal,
  non-overflowing range, which contains every value appearing in this
  development.  Because the `Rat` arithmetic of the standard library is
  marked irreducible, the model computes through `mkRat` / `Rat.divInt`
  (`qAdd`, `qMul`, ...); bridge lemmas identify these with `+`, `*`, ...
* JavaScript `Map` and plain-object records are modelled as association
  lists with `lookupKey` / `setKey` / `eraseKey` mirroring `get` / `set`
  / `delete` (insertion order preserved, keys unique for records).
* `throw new Error(...)` is modelled with `Except`; each error
  constructor records the data interpolated into the source message.
* Timestamps (`new Date().toISOString()`) are threaded as opaque `now`
  string parameters.
-/

deriving instance DecidableEq for Except

/-! ## Exact rational arithmetic through reducible constructors -/

/-- Exact addition on `ℚ`, written through `mkRat` so that it evaluates
by kernel reduction.  Equal to `a + b` (`qAdd_eq`). -/
def qAdd (a b : ℚ) : ℚ := mkRat (a.num * b.den + b.num * a.den) (a.den * b.den)

/-- Exact subtraction on `ℚ` through `mkRat`.  Equal to `a - b`. -/
def qSub (a b : ℚ) : ℚ := mkRat (a.num * b.den - b.num * a.den) (a.den * b.den)

/-- Exact multiplication on `ℚ` through `mkRat`.  Equal to `a * b`. -/
def qMul (a b : ℚ) : ℚ := mkRat (a.num * b.num) (a.den * b.den)

/-- Exact division on `ℚ` through `Rat.divInt`.  Equal to `a / b`
(with the `b = 0` convention `a / 0 = 0`). -/
def qDiv (a b : ℚ) : ℚ := qMul a (Rat.divInt b.den b.num)

/-- Integer power of two as a rational, `qPow2 e = 2 ^ e`. -/
def qPow2 (e : ℤ) : ℚ :=
  if 0 ≤ e then ((2 ^ e.toNat : ℕ) : ℚ) else Rat.divInt 1 (2 ^ (-e).toNat)

/-! ## The binary64 rounding model -/

/-- Fuel-driven floor of the base-two logarithm (the fuel makes the
recursion structural, so the kernel can evaluate it). -/
def log2fuel : ℕ → ℕ → ℕ
  | 0, _ => 0
  | f + 1, n => if n < 2 then 0 else log2fuel f (n / 2) + 1

/-- Floor of the base-two logarithm of a natural number (0 for 0). -/
def natLog2 (n : ℕ) : ℕ := log2fuel n n

/-- Ceiling of the base-two logarithm of a natural number. -/
def clog2 (n : ℕ) : ℕ := if n ≤ 1 then 0 else natLog2 (n - 1) + 1

/-- Floor of the base-two logarithm of a positive rational:
`2 ^ floorLog2 q ≤ q < 2 ^ (floorLog2 q + 1)`. -/
def floorLog2 (q : ℚ) : ℤ :=
  if 1 ≤ q then (natLog2 q.floor.toNat : ℤ) else -(clog2 (qDiv 1 q).ceil.toNat : ℤ)

/-- Round a rational to an integer, to nearest with ties to even —
the rounding of IEEE-754 binary64 arithmetic. -/
def rne (q : ℚ) : ℤ :=
  if qSub q (q.floor : ℚ) < Rat.divInt 1 2 then q.floor
  else if Rat.divInt 1 2 < qSub q (q.floor : ℚ) then q.floor + 1
  else if q.floor % 2 = 0 then q.floor else q.floor + 1

/-- Correctly rounded binary64 value of a positive rational: scale into
`[2 ^ 52, 2 ^ 53)`, round to an integer significand, scale back. -/
def roundF64Pos (q : ℚ) : ℚ :=
  qDiv (rne (qMul q (qPow2 (52 - floorLog2 q))) : ℚ) (qPow2 (52 - floorLog2 q))

/-- The value of the binary64 double nearest to `q` (ties to even).
Models the result of a JavaScript floating-point operation whose exact
value is `q`; covers the normal, non-overflowing range. -/
def roundF64 (q : ℚ) : ℚ :=
  if q = 0 then 0
  else if q < 0 then - roundF64Pos (-q)
  else roundF64Pos q

/-- JavaScript `a + b` on numbers: exact sum, then binary64 rounding. -/
def jsAdd (a b : ℚ) : ℚ := roundF64 (qAdd a b)

/-- JavaScript `a * b` on numbers: exact product, then binary64 rounding. -/
def jsMul (a b : ℚ) : ℚ := roundF64 (qMul a b)

/-- JavaScript `a / b` on numbers: exact quotient, then binary64 rounding. -/
def jsDiv (a b : ℚ) : ℚ := roundF64 (qDiv a b)

/-! ## Association lists: the model of `Map` and plain-object records

`lookupKey` is `Map.get` / indexing, `setKey` is `Map.set` / keyed
assignment (replace in place when the key is present, append otherwise),
`eraseKey` is `delete obj[k]`. -/

/-- Lookup in an association list (JavaScript `map.get(k)` / `obj[k]`). -/
def lookupKey {α : Type} : List (String × α) → String → Option α
  | [], _ => none
  | p :: rest, k => if p.1 = k then some p.2 else lookupKey rest k

/-- Keyed update (JavaScript `map.set(k, v)` / `obj[k] = v`): replaces in
place when present, appends otherwise, preserving insertion order. -/
def setKey {α : Type} : List (String × α) → String → α → List (String × α)
  | [], k, v => [(k, v)]
  | p :: rest, k, v => if p.1 = k then (k, v) :: rest else p :: setKey rest k v

/-- Keyed removal (JavaScript `delete obj[k]`): removes the first entry
with the given key (keys are unique in the modelled records). -/
def eraseKey {α : Type} : List (String × α) → String → List (String × α)
  | [], _ => []
  | p :: rest, k => if p.1 = k then rest else p :: eraseKey rest k

/-- Key list of an association list (JavaScript `Object.keys`). -/
def keysOf {α : Type} (m : List (String × α)) : List String := m.map Prod.fst

/-! ## Core data model (backend/src/types/index.ts) -/

/-- Asset type enumeration from `types/index.ts`. -/
inductive AssetType where
  | monetary
  | digitalAsset
  | nft
  | physicalBacked
  | custom
  deriving DecidableEq, Repr

/-- An `Asset` record (free-form `metadata` omitted; the embedded code
never reads it). -/
structure Asset where
  id : String
  type : AssetType
  name : String
  symbol : String
  decimals : ℕ
  contractAddress : String
  createdAt : String
  updatedAt : String
  deriving DecidableEq, Repr

/-- A `BasketAsset` entry: asset reference plus integer-percentage
weight (a JavaScript number, hence a binary64 value, hence a rational). -/
structure BasketAsset where
  assetId : String
  weight : ℚ
  proportion : String
  deriving DecidableEq, Repr

/-- Basket status enumeration. -/
inductive BasketStatus where
  | active
  | paused
  | deprecated
  deriving DecidableEq, Repr

/-- A `Basket` record. -/
structure Basket where
  id : String
  name : String
  symbol : String
  description : Option String
  assets : List BasketAsset
  status : BasketStatus
  createdAt : String
  updatedAt : String
  deriving DecidableEq, Repr

/-- Input to `registerAsset` (`Omit<Asset, createdAt | updatedAt>`). -/
structure AssetInput where
  id : String
  type : AssetType
  name : String
  symbol : String
  decimals : ℕ
  contractAddress : String
  deriving DecidableEq, Repr

/-- Input to `createBasket` (`Omit<Basket, createdAt | updatedAt>`). -/
structure BasketInput where
  id : String
  name : String
  symbol : String
  description : Option String
  assets : List BasketAsset
  status : BasketStatus
  deriving DecidableEq, Repr

/-- Errors thrown by the single-chain `AssetRegistry`; each constructor
carries the data interpolated into the source message. -/
inductive RegError where
  /-- Message: `Asset (id) already exists` -/
  | assetAlreadyExists (id : String)
  /-- Message: `Asset (id) not found` (basket creation referencing an unknown asset) -/
  | assetNotFound (id : String)
  /-- Message: `Basket (id) already exists` -/
  | basketAlreadyExists (id : String)
  /-- Message: `Asset weights must sum to 100 (current: (totalWeight))` -/
  | invalidWeights (totalWeight : ℚ)
  /-- Message: `Basket (id) not found` -/
  | basketNotFound (id : String)
  deriving DecidableEq, Repr

namespace AssetRegistry

/-- In-memory state of the `AssetRegistry` service: the `assets` and
`baskets` maps. -/
structure State where
  assets : List (String × Asset)
  baskets : List (String × Basket)
  deriving DecidableEq, Repr

/-- The registry as constructed with no persisted data. -/
def initState : State := { assets := [], baskets := [] }

/-- Operation `registerAsset`: fails when the id is taken, otherwise stores the
asset with creation timestamps. -/
def registerAsset (st : State) (input : AssetInput) (now : String) :
    Except RegError (Asset × State) :=
  if (lookupKey st.assets input.id).isSome then
    .error (.assetAlreadyExists input.id)
  else
    let fullAsset : Asset :=
      { id := input.id, type := input.type, name := input.name,
        symbol := input.symbol, decimals := input.decimals,
        contractAddress := input.contractAddress,
        createdAt := now, updatedAt := now }
    .ok (fullAsset, { st with assets := setKey st.assets input.id fullAsset })

/-- The weight total of `createBasket`:
`basket.assets.reduce((sum, ba) => sum + ba.weight, 0)`, each `+` a
binary64 addition. -/
def sumWeights (l : List BasketAsset) : ℚ :=
  l.foldl (fun s ba => jsAdd s ba.weight) 0

/-- Operation `createBasket`: duplicate-id check, existence check for every
referenced asset (first failure reported), weight-sum check, then store. -/
def createBasket (st : State) (input : BasketInput) (now : String) :
    Except RegError (Basket × State) :=
  if (lookupKey st.baskets input.id).isSome then
    .error (.basketAlreadyExists input.id)
  else
    match input.assets.find? (fun ba => (lookupKey st.assets ba.assetId).isNone) with
    | some ba => .error (.assetNotFound ba.assetId)
    | none =>
      let totalWeight := sumWeights input.assets
      if totalWeight = 100 then
        let fullBasket : Basket :=
          { id := input.id, name := input.name, symbol := input.symbol,
            description := input.description, assets := input.assets,
            status := input.status, createdAt := now, updatedAt := now }
        .ok (fullBasket, { st with baskets := setKey st.baskets input.id fullBasket })
      else
        .error (.invalidWeights totalWeight)

/-- Operation `getBasket` (a pure read of the baskets map). -/
def getBasket (st : State) (id : String) : Option Basket :=
  lookupKey st.baskets id

/-- The per-entry amount of `expandBasket`:
`(totalAmountNum * basketAsset.weight) / 100` in JavaScript numbers —
a binary64 multiplication followed by a binary64 division. -/
def expandAmount (totalAmountNum weight : ℚ) : ℚ :=
  jsDiv (jsMul totalAmountNum weight) 100

/-- Operation `expandBasket(basketId, totalAmount)`.  The string argument is given
by its decimal value `totalAmountDec`; `parseFloat` is the binary64
rounding of that value.  Entries whose asset is missing from the assets
map are skipped (`if (!asset) continue`). -/
def expandBasket (st : State) (basketId : String) (totalAmountDec : ℚ) :
    Except RegError (List (Asset × ℚ)) :=
  match lookupKey st.baskets basketId with
  | none => .error (.basketNotFound basketId)
  | some basket =>
    let totalAmountNum := roundF64 totalAmountDec
    .ok (basket.assets.filterMap (fun ba =>
      (lookupKey st.assets ba.assetId).map
        (fun asset => (asset, expandAmount totalAmountNum ba.weight))))

/-- The mutating operations of the single-chain registry, as a step
alphabet for reachability. -/
inductive Op where
  | regAsset (input : AssetInput) (now : String)
  | mkBasket (input : BasketInput) (now : String)

/-- Apply one operation; a thrown error leaves the state unchanged. -/
def applyOp (st : State) : Op → State
  | .regAsset input now =>
    match registerAsset st input now with
    | .ok p => p.2
    | .error _ => st
  | .mkBasket input now =>
    match createBasket st input now with
    | .ok p => p.2
    | .error _ => st

/-- Registry states reachable from the empty registry through the
service operations. -/
inductive Reachable : State → Prop where
  | init : Reachable initState
  | step {st : State} (h : Reachable st) (op : Op) : Reachable (applyOp st op)

end AssetRegistry

/-! ## Multi-chain data model (backend/src/types/multichain.ts) -/

/-- A per-chain asset descriptor (`ChainAsset`; `metadata` omitted). -/
structure ChainAsset where
  chainId : String
  contractAddress : String
  decimals : ℕ
  deriving DecidableEq, Repr

/-- A `MultiChainAsset`: per-chain descriptors keyed by chain id plus a
designated default chain.  `defaultChain` is an `Option` because the
runtime value `remainingChains[0]` of `removeAssetFromChain` is
`undefined` when no chain remains; `none` models that `undefined`. -/
structure MultiChainAsset where
  id : String
  type : AssetType
  name : String
  symbol : String
  chains : List (String × ChainAsset)
  defaultChain : Option String
  createdAt : String
  updatedAt : String
  deriving DecidableEq, Repr

/-- Input to `registerMultiChainAsset` (timestamps omitted; the declared
TypeScript type of `defaultChain` is `string`, hence no `Option` here). -/
structure MultiChainAssetInput where
  id : String
  type : AssetType
  name : String
  symbol : String
  chains : List (String × ChainAsset)
  defaultChain : String
  deriving DecidableEq, Repr

/-- A `ChainBasketAsset` entry of a multi-chain basket. -/
structure ChainBasketAsset where
  assetId : String
  weight : ℚ
  proportion : String
  chainId : Option String
  deriving DecidableEq, Repr

/-- A `MultiChainBasket`: weighted entries plus the list of supported
chain ids and a default chain.  As for `MultiChainAsset`, `none` in
`defaultChain` models the JavaScript `undefined` that
`remainingChains[0]` produces when the filter leaves nothing. -/
structure MultiChainBasket where
  id : String
  name : String
  symbol : String
  description : Option String
  assets : List ChainBasketAsset
  supportedChains : List String
  defaultChain : Option String
  status : BasketStatus
  createdAt : String
  updatedAt : String
  deriving DecidableEq, Repr

/-- Input to the multi-chain `createBasket` (timestamps omitted). -/
structure MultiChainBasketInput where
  id : String
  name : String
  symbol : String
  description : Option String
  assets : List ChainBasketAsset
  supportedChains : List String
  defaultChain : String
  status : BasketStatus
  deriving DecidableEq, Repr

/-- Errors thrown by the multi-chain registries; each constructor
carries the data interpolated into the source message. -/
inductive MCError where
  /-- Message: `Asset (id) already exists` -/
  | assetAlreadyExists (id : String)
  /-- Message: `Asset must be deployed on at least one chain` -/
  | noChains
  /-- Message: `Default chain (chainId) not found in asset chains` -/
  | defaultChainMissing (chainId : String)
  /-- Message: `Asset (assetId) not found` -/
  | assetNotFound (assetId : String)
  /-- Message: `Asset (assetId) already deployed on chain (chainId)` -/
  | chainAlreadyPresent (assetId chainId : String)
  /-- Message: `Asset (assetId) not deployed on chain (chainId)` -/
  | chainNotPresent (assetId chainId : String)
  /-- Message: `Cannot remove asset from its only chain` -/
  | lastChain
  /-- Message: `Basket (id) already exists` -/
  | basketAlreadyExists (id : String)
  /-- Message: `Basket must support at least one chain` -/
  | noSupportedChains
  /-- Message: `Default chain (chainId) not in supported chains` -/
  | defaultNotSupported (chainId : String)
  /-- Message: `Asset weights must sum to 100 (current: (totalWeight))` -/
  | invalidWeights (totalWeight : ℚ)
  /-- Message: `Basket (basketId) not found` -/
  | basketNotFound (basketId : String)
  /-- Message: `Basket (basketId) already supports chain (chainId)` -/
  | chainAlreadySupported (basketId chainId : String)
  /-- Message: `Basket (basketId) does not support chain (chainId)` -/
  | chainNotSupported (basketId chainId : String)
  /-- Message: `Cannot remove basket from its only chain` -/
  | lastChainBasket
  deriving DecidableEq, Repr

namespace MultiChainAssetRegistry

/-- In-memory state of the `MultiChainAssetRegistry` service. -/
structure State where
  assets : List (String × MultiChainAsset)
  deriving DecidableEq, Repr

/-- The registry as constructed with no persisted data. -/
def initState : State := { assets := [] }

/-- Operation `registerMultiChainAsset`: duplicate-id check, at-least-one-chain
check (`Object.keys(asset.chains).length === 0`), default-chain-present
check (`!asset.chains[asset.defaultChain]`), then store. -/
def registerMultiChainAsset (st : State) (input : MultiChainAssetInput)
    (now : String) : Except MCError (MultiChainAsset × State) :=
  if (lookupKey st.assets input.id).isSome then
    .error (.assetAlreadyExists input.id)
  else if input.chains.length = 0 then
    .error .noChains
  else if (lookupKey input.chains input.defaultChain).isNone then
    .error (.defaultChainMissing input.defaultChain)
  else
    let fullAsset : MultiChainAsset :=
      { id := input.id, type := input.type, name := input.name,
        symbol := input.symbol, chains := input.chains,
        defaultChain := some input.defaultChain,
        createdAt := now, updatedAt := now }
    .ok (fullAsset, { assets := setKey st.assets input.id fullAsset })

/-- Operation `addAssetToChain`: asset must exist, chain must not already be
present; then `asset.chains[chainId] = chainAsset` and a timestamp bump. -/
def addAssetToChain (st : State) (assetId chainId : String)
    (chainAsset : ChainAsset) (now : String) :
    Except MCError (MultiChainAsset × State) :=
  match lookupKey st.assets assetId with
  | none => .error (.assetNotFound assetId)
  | some asset =>
    if (lookupKey asset.chains chainId).isSome then
      .error (.chainAlreadyPresent assetId chainId)
    else
      let updated : MultiChainAsset :=
        { asset with chains := setKey asset.chains chainId chainAsset,
                     updatedAt := now }
      .ok (updated, { assets := setKey st.assets assetId updated })

/-- Operation `removeAssetFromChain`: asset and chain must exist and the chain
must not be the only one (`Object.keys(asset.chains).length === 1`);
when the removed chain is the default, the default becomes the first
remaining key (computed before the `delete`). -/
def removeAssetFromChain (st : State) (assetId chainId : String)
    (now : String) : Except MCError (MultiChainAsset × State) :=
  match lookupKey st.assets assetId with
  | none => .error (.assetNotFound assetId)
  | some asset =>
    if (lookupKey asset.chains chainId).isNone then
      .error (.chainNotPresent assetId chainId)
    else if asset.chains.length = 1 then
      .error .lastChain
    else
      let newDefault : Option String :=
        if asset.defaultChain = some chainId then
          ((keysOf asset.chains).filter (fun c => ¬ c = chainId)).head?
        else asset.defaultChain
      let updated : MultiChainAsset :=
        { asset with chains := eraseKey asset.chains chainId,
                     defaultChain := newDefault, updatedAt := now }
      .ok (updated, { assets := setKey st.assets assetId updated })

end MultiChainAssetRegistry

namespace MultiChainBasketRegistry

/-- In-memory state of the `MultiChainBasketRegistry` service. -/
structure State where
  baskets : List (String × MultiChainBasket)
  deriving DecidableEq, Repr

/-- The registry as constructed with no persisted data. -/
def initState : State := { baskets := [] }

/-- The weight total of the multi-chain `createBasket` (binary64
additions, as in the single-chain registry). -/
def sumWeightsC (l : List ChainBasketAsset) : ℚ :=
  l.foldl (fun s ba => jsAdd s ba.weight) 0

/-- The multi-chain `createBasket`: duplicate-id check, non-empty
supported-chains check, default-in-supported check
(`supportedChains.includes(defaultChain)`), weight-sum check, then
store.  Referenced assets are not checked. -/
def createBasket (st : State) (input : MultiChainBasketInput)
    (now : String) : Except MCError (MultiChainBasket × State) :=
  if (lookupKey st.baskets input.id).isSome then
    .error (.basketAlreadyExists input.id)
  else if input.supportedChains.length = 0 then
    .error .noSupportedChains
  else if ¬ input.supportedChains.contains input.defaultChain then
    .error (.defaultNotSupported input.defaultChain)
  else
    let totalWeight := sumWeightsC input.assets
    if totalWeight = 100 then
      let fullBasket : MultiChainBasket :=
        { id := input.id, name := input.name, symbol := input.symbol,
          description := input.description, assets := input.assets,
          supportedChains := input.supportedChains,
          defaultChain := some input.defaultChain,
          status := input.status, createdAt := now, updatedAt := now }
      .ok (fullBasket, { baskets := setKey st.baskets input.id fullBasket })
    else
      .error (.invalidWeights totalWeight)

/-- Operation `addChainToBasket`: basket must exist, chain must not already be
supported; then `supportedChains.push(chainId)` and a timestamp bump. -/
def addChainToBasket (st : State) (basketId chainId : String)
    (now : String) : Except MCError (MultiChainBasket × State) :=
  match lookupKey st.baskets basketId with
  | none => .error (.basketNotFound basketId)
  | some basket =>
    if basket.supportedChains.contains chainId then
      .error (.chainAlreadySupported basketId chainId)
    else
      let updated : MultiChainBasket :=
        { basket with supportedChains := basket.supportedChains ++ [chainId],
                      updatedAt := now }
      .ok (updated, { baskets := setKey st.baskets basketId updated })

/-- Operation `removeChainFromBasket`: basket must exist, the chain must be
supported and must not be the only entry
(`supportedChains.length === 1`); when the removed chain is the default,
the default becomes the first element of the filtered list; the
supported list is then replaced by `filter(c => c !== chainId)`, which
removes every occurrence of `chainId`. -/
def removeChainFromBasket (st : State) (basketId chainId : String)
    (now : String) : Except MCError (MultiChainBasket × State) :=
  match lookupKey st.baskets basketId with
  | none => .error (.basketNotFound basketId)
  | some basket =>
    if ¬ basket.supportedChains.contains chainId then
      .error (.chainNotSupported basketId chainId)
    else if basket.supportedChains.length = 1 then
      .error .lastChainBasket
    else
      let newDefault : Option String :=
        if basket.defaultChain = some chainId then
          (basket.supportedChains.filter (fun c => ¬ c = chainId)).head?
        else basket.defaultChain
      let updated : MultiChainBasket :=
        { basket with
            supportedChains := basket.supportedChains.filter (fun c => ¬ c = chainId),
            defaultChain := newDefault, updatedAt := now }
      .ok (updated, { baskets := setKey st.baskets basketId updated })

/-- The mutating operations of the multi-chain basket registry. -/
inductive Op where
  | create (input : MultiChainBasketInput) (now : String)
  | addChain (basketId chainId : String) (now : String)
  | removeChain (basketId chainId : String) (now : String)

/-- Apply one operation; a thrown error leaves the state unchanged. -/
def applyOp (st : State) : Op → State
  | .create input now =>
    match createBasket st input now with
    | .ok p => p.2
    | .error _ => st
  | .addChain basketId chainId now =>
    match addChainToBasket st basketId chainId now with
    | .ok p => p.2
    | .error _ => st
  | .removeChain basketId chainId now =>
    match removeChainFromBasket st basketId chainId now with
    | .ok p => p.2
    | .error _ => st

end MultiChainBasketRegistry

/-! ## Mint state (backend/src/services/mint-state.ts) -/

/-- Status of a `MintRecord`. -/
inductive MintStatus where
  | pending
  | completed
  | failed
  deriving DecidableEq, Repr

/-- The statuses an update may set (completed or failed in the
TypeScript signature of `updateMintRecord`). -/
inductive UpdStatus where
  | completed
  | failed
  deriving DecidableEq, Repr

/-- Inclusion of update statuses into record statuses. -/
def UpdStatus.toStatus : UpdStatus → MintStatus
  | .completed => .completed
  | .failed => .failed

/-- A `MintedAsset` entry of a mint record.  The source stores `amount`
as the string produced by `Number.prototype.toString`; since that
string determines the double uniquely, the entry is modelled by the
numeric value. -/
structure MintedAsset where
  assetId : String
  symbol : String
  type : AssetType
  amount : ℚ
  contractAddress : String
  txHash : Option String
  deriving DecidableEq, Repr

/-- A `MintRecord`.  `amount` is the raw request string, stored
untouched; `error` carries the field of the same name. -/
structure MintRecord where
  id : String
  basketId : String
  transactionId : String
  beneficiary : String
  amount : String
  assets : List MintedAsset
  status : MintStatus
  createdAt : String
  completedAt : Option String
  error : Option String
  deriving DecidableEq, Repr

/-- The `updates` argument of `updateMintRecord`; `none` models an
omitted field (the object spread then keeps the stored value). -/
structure MintUpdates where
  status : Option UpdStatus := none
  assets : Option (List MintedAsset) := none
  error : Option String := none
  deriving DecidableEq, Repr

/-- Error thrown by `updateMintRecord` for an unknown id. -/
inductive MintError where
  /-- Message: `Mint record (id) not found` -/
  | notFound (id : String)
  deriving DecidableEq, Repr

namespace MintState

/-- In-memory state of the `MintStateService`: the mints map. -/
structure State where
  mints : List (String × MintRecord)
  deriving DecidableEq, Repr

/-- The service as constructed with no persisted data. -/
def initState : State := { mints := [] }

/-- Operation `createMintRecord`: derives the id `mint-(transactionId)`, builds a
`pending` record with no completion timestamp, and stores it with
`map.set` — unconditionally, replacing any record already at that id. -/
def createMintRecord (st : State) (basketId transactionId beneficiary
    amount : String) (assets : List MintedAsset) (now : String) :
    MintRecord × State :=
  let id := "mint-" ++ transactionId
  let record : MintRecord :=
    { id := id, basketId := basketId, transactionId := transactionId,
      beneficiary := beneficiary, amount := amount, assets := assets,
      status := .pending, createdAt := now, completedAt := none,
      error := none }
  (record, { mints := setKey st.mints id record })

/-- Operation `getMintRecord` (a pure read). -/
def getMintRecord (st : State) (id : String) : Option MintRecord :=
  lookupKey st.mints id

/-- Operation `updateMintRecord`: fails for an unknown id; otherwise spreads the
updates over the stored record and sets `completedAt` to the current
time exactly when the update carries a status.  No terminal-state guard
exists: a record whose status is already `completed` or `failed` is
overwritten like any other. -/
def updateMintRecord (st : State) (id : String) (u : MintUpdates)
    (now : String) : Except MintError (MintRecord × State) :=
  match lookupKey st.mints id with
  | none => .error (.notFound id)
  | some record =>
    let updated : MintRecord :=
      { record with
          status := match u.status with
            | some s => s.toStatus
            | none => record.status
          assets := u.assets.getD record.assets
          error := match u.error with
            | some e => some e
            | none => record.error
          completedAt := if u.status.isSome then some now else record.completedAt }
    .ok (updated, { mints := setKey st.mints id updated })

/-- The operations of the mint-state service, as a step alphabet. -/
inductive Event where
  | create (basketId transactionId beneficiary amount : String)
      (assets : List MintedAsset) (now : String)
  | update (id : String) (u : MintUpdates) (now : String)

/-- Apply one event; a thrown error leaves the state unchanged. -/
def applyEvent (st : State) : Event → State
  | .create basketId transactionId beneficiary amount assets now =>
    (createMintRecord st basketId transactionId beneficiary amount assets now).2
  | .update id u now =>
    match updateMintRecord st id u now with
    | .ok p => p.2
    | .error _ => st

/-- Mint-state service states reachable from the empty map. -/
inductive Reachable : State → Prop where
  | init : Reachable initState
  | step {st : State} (h : Reachable st) (e : Event) : Reachable (applyEvent st e)

end MintState

/-! ## Mint orchestrator (backend CREWorkflowService.triggerMint) -/

/-- A mint request.  `amount` is the raw request string; `amountDec` is
the decimal value that string denotes (the input of `parseFloat`); the
pair models the single JavaScript string. -/
structure MintRequest where
  basketId : String
  beneficiary : String
  amount : String
  amountDec : ℚ
  assetTypeFilter : Option AssetType
  deriving DecidableEq, Repr

/-- Errors raised by `triggerMint` before the workflow runs. -/
inductive TriggerError where
  /-- Message: `Basket (basketId) not found` -/
  | basketNotFound (basketId : String)
  /-- Message: `No assets found matching filter` -/
  | noAssetsMatchingFilter
  deriving DecidableEq, Repr

/-- Result shape of `triggerMint` (`CREWorkflowResult`). -/
structure CREWorkflowResult where
  success : Bool
  transactionId : String
  mintRecord : Option MintRecord
  error : Option TriggerError
  workflowError : Option String
  deriving DecidableEq, Repr

namespace CREWorkflow

/-- The mock `runCRESimulation` of the backend resolves with
`success: true` unconditionally (no proof-of-reserve or balance check
is performed there). -/
def runCRESimulationSucceeds : Bool := true

/-- The part of `triggerMint` that runs before the workflow call:
basket lookup, `expandBasket`, the optional asset-type filter, the
empty-result check, and `createMintRecord`.  Returns the pending
record, the mint state holding it, and the minted-asset list. -/
def triggerMintPhase1 (reg : AssetRegistry.State) (ms : MintState.State)
    (req : MintRequest) (transactionId now : String) :
    Except TriggerError (MintRecord × MintState.State × List MintedAsset) :=
  match AssetRegistry.getBasket reg req.basketId with
  | none => .error (.basketNotFound req.basketId)
  | some _ =>
    match AssetRegistry.expandBasket reg req.basketId req.amountDec with
    | .error _ => .error (.basketNotFound req.basketId)
    | .ok expandedAssets =>
      let filteredAssets : List (Asset × ℚ) := match req.assetTypeFilter with
        | some t => expandedAssets.filter (fun ea => decide (ea.1.type = t))
        | none => expandedAssets
      if filteredAssets.length = 0 then
        .error .noAssetsMatchingFilter
      else
        let mintedAssets : List MintedAsset := filteredAssets.map (fun ea =>
          { assetId := ea.1.id, symbol := ea.1.symbol, type := ea.1.type,
            amount := ea.2, contractAddress := ea.1.contractAddress,
            txHash := none })
        let created := MintState.createMintRecord ms req.basketId
          transactionId req.beneficiary req.amount mintedAssets now
        .ok (created.1, created.2, mintedAssets)

/-- The part of `triggerMint` that runs after the workflow resolves:
on success the record is updated to `completed` (with the asset list),
on failure to `failed` (with the workflow error). -/
def triggerMintFinish (ms1 : MintState.State) (record : MintRecord)
    (mintedAssets : List MintedAsset) (transactionId : String)
    (simSuccess : Bool) (simError : Option String) (now2 : String) :
    CREWorkflowResult × MintState.State :=
  if simSuccess then
    match MintState.updateMintRecord ms1 record.id
        { status := some .completed, assets := some mintedAssets } now2 with
    | .ok p =>
      ({ success := true, transactionId := transactionId,
         mintRecord := some p.1, error := none, workflowError := none }, p.2)
    | .error _ =>
      ({ success := false, transactionId := transactionId,
         mintRecord := none, error := none, workflowError := none }, ms1)
  else
    match MintState.updateMintRecord ms1 record.id
        { status := some .failed, error := simError } now2 with
    | .ok p =>
      ({ success := false, transactionId := transactionId,
         mintRecord := none, error := none,
         workflowError := some (simError.getD "Workflow failed") }, p.2)
    | .error _ =>
      ({ success := false, transactionId := transactionId,
         mintRecord := none, error := none,
         workflowError := some (simError.getD "Workflow failed") }, ms1)

/-- Operation `triggerMint`, with the workflow outcome (`runCRESimulation`) passed
as a parameter; the shipped mock always succeeds
(`runCRESimulationSucceeds`).  Phase 1 failures are caught and returned
as an unsuccessful result with no record created. -/
def triggerMint (reg : AssetRegistry.State) (ms : MintState.State)
    (req : MintRequest) (transactionId now : String) (simSuccess : Bool)
    (simError : Option String) (now2 : String) :
    CREWorkflowResult × MintState.State :=
  match triggerMintPhase1 reg ms req transactionId now with
  | .error e =>
    ({ success := false, transactionId := transactionId,
       mintRecord := none, error := some e, workflowError := none }, ms)
  | .ok (record, ms1, mintedAssets) =>
    triggerMintFinish ms1 record mintedAssets transactionId simSuccess simError now2

end CREWorkflow

/-! ## The frontend mint-eligibility gate (MintRequest.tsx) and the
POR expiry clock (FlowStatusBoard) -/

/-- Result of `checkMintEligibility` (numeric fields by value). -/
structure MintCheckResult where
  success : Bool
  porValid : Bool
  reserveSufficient : Bool
  policyCheck : Bool
  reserveBalance : ℤ
  requestedAmount : ℤ
  deriving DecidableEq, Repr

/-- Operation `checkMintEligibility(amount)`: the POR flag is read from the store,
the reserve balance is a random draw, the requested amount is
`parseInt(amount)`, and the ACE policy outcome is a random draw; the
random draws and the flag enter as parameters.  The request is eligible
exactly when the POR flag is set, the requested amount does not exceed
the reserve balance, and the policy draw passes. -/
def checkMintEligibility (isPORValid : Bool) (reserveBalance : ℤ)
    (requestedAmount : ℤ) (policyCheck : Bool) : MintCheckResult :=
  let reserveSufficient : Bool := decide (requestedAmount ≤ reserveBalance)
  { success := isPORValid && reserveSufficient && policyCheck,
    porValid := isPORValid,
    reserveSufficient := reserveSufficient,
    policyCheck := policyCheck,
    reserveBalance := reserveBalance,
    requestedAmount := requestedAmount }

/-- The POR expiry check of `FlowStatusBoard.checkExpiration`:
`elapsed = (now - porVerifiedAt) / 1000`, `expiresIn = 3600 - elapsed`,
expired when `expiresIn <= 0`.  Times are in milliseconds; the division
is exact here (binary64 rounding cannot move the result across zero at
these magnitudes). -/
def porExpired (nowMs porVerifiedAtMs : ℤ) : Bool :=
  decide (qSub 3600 (qDiv ((nowMs - porVerifiedAtMs : ℤ) : ℚ) 1000) ≤ 0)

/-! ## The workflow decimal-scaling step (workflow/main.ts onMintRequest) -/

/-- An asset entry of the workflow payload (`assetPayloadSchema`); note
that the schema carries no decimals field.  `amount` is the `BigInt`
value of the amount string. -/
structure WorkflowAssetPayload where
  assetId : String
  symbol : String
  type : AssetType
  amount : ℤ
  contractAddress : String
  chainId : String
  deriving DecidableEq, Repr

/-- The scaling step of `onMintRequest`:
`decimals = config.decimals ?? 6` followed by
`scaledAmount = BigInt(asset.amount) * 10n ** BigInt(decimals)`.
`configDecimals` is the workflow config value (`none` when absent). -/
def mintScaledAmount (configDecimals : Option ℕ)
    (asset : WorkflowAssetPayload) : ℤ :=
  asset.amount * 10 ^ (configDecimals.getD 6)

/-! ## Concrete fixtures used by witnesses and counterexamples -/

/-- Whether an `Except` value is a success (for stating that a source
operation did not throw). -/
def exceptIsOk {ε α : Type} : Except ε α → Bool
  | .ok _ => true
  | .error _ => false

/-- The amounts returned by `expandBasket`, as an `Option` (a stating
projection: `none` when the call throws). -/
def expandedAmounts (st : AssetRegistry.State) (basketId : String)
    (totalAmountDec : ℚ) : Option (List ℚ) :=
  match AssetRegistry.expandBasket st basketId totalAmountDec with
  | .ok l => some (l.map Prod.snd)
  | .error _ => none

/-- Fixture: a monetary asset registration input. -/
def usdInput : AssetInput :=
  { id := "usd", type := .monetary, name := "US Dollar", symbol := "USD",
    decimals := 2, contractAddress := "0xA" }

/-- Fixture: a physical-backed asset registration input. -/
def goldInput : AssetInput :=
  { id := "gold", type := .physicalBacked, name := "Gold", symbol := "AU",
    decimals := 0, contractAddress := "0xB" }

/-- Fixture: a 60/40 basket over the two fixture assets. -/
def demoBasketInput : BasketInput :=
  { id := "bkt", name := "Demo Basket", symbol := "DMB", description := none,
    assets := [{ assetId := "usd", weight := 60, proportion := "60" },
               { assetId := "gold", weight := 40, proportion := "40" }],
    status := .active }

/-- Fixture: a 30/70 basket over the two fixture assets. -/
def demoBasketInput2 : BasketInput :=
  { id := "bkt2", name := "Drift Basket", symbol := "DRB", description := none,
    assets := [{ assetId := "usd", weight := 30, proportion := "30" },
               { assetId := "gold", weight := 70, proportion := "70" }],
    status := .active }

/-- Fixture: the registry holding both fixture assets and both fixture
baskets, built through the service operations. -/
def demoReg : AssetRegistry.State :=
  [AssetRegistry.Op.regAsset usdInput "t1",
   AssetRegistry.Op.regAsset goldInput "t2",
   AssetRegistry.Op.mkBasket demoBasketInput "t3",
   AssetRegistry.Op.mkBasket demoBasketInput2 "t4"].foldl
    AssetRegistry.applyOp AssetRegistry.initState

/-- Fixture: the stored form of the 60/40 fixture basket. -/
def demoBasket : Basket :=
  { id := "bkt", name := "Demo Basket", symbol := "DMB", description := none,
    assets := [{ assetId := "usd", weight := 60, proportion := "60" },
               { assetId := "gold", weight := 40, proportion := "40" }],
    status := .active, createdAt := "t3", updatedAt := "t3" }

/-- Fixture: the stored form of the `usd` asset. -/
def usdAsset : Asset :=
  { id := "usd", type := .monetary, name := "US Dollar", symbol := "USD",
    decimals := 2, contractAddress := "0xA", createdAt := "t1",
    updatedAt := "t1" }

/-- Fixture: a basket referencing an asset id absent from the assets
map.  Such a state arises from the unvalidated load-from-disk path
(`loadBaskets` copies the persisted JSON into the map without checks). -/
def ghostBasket : Basket :=
  { id := "gbk", name := "Ghost Basket", symbol := "GST", description := none,
    assets := [{ assetId := "usd", weight := 60, proportion := "60" },
               { assetId := "phantom", weight := 40, proportion := "40" }],
    status := .active, createdAt := "t0", updatedAt := "t0" }

/-- Fixture: a registry state whose basket references a missing asset. -/
def ghostReg : AssetRegistry.State :=
  { assets := [("usd", usdAsset)], baskets := [("gbk", ghostBasket)] }

/-- Fixture: a multi-chain basket creation input whose supported-chain
list contains the same chain id twice (the HTTP schema and
`createBasket` never deduplicate or reject duplicates). -/
def dupChainsInput : MultiChainBasketInput :=
  { id := "b1", name := "Dup", symbol := "DUP", description := none,
    assets := [{ assetId := "x", weight := 100, proportion := "100",
                 chainId := none }],
    supportedChains := ["chainA", "chainA"], defaultChain := "chainA",
    status := .active }

/-- Fixture: the multi-chain basket registry after creating the
duplicated-chains basket. -/
def dupChainsState1 : MultiChainBasketRegistry.State :=
  MultiChainBasketRegistry.applyOp MultiChainBasketRegistry.initState
    (.create dupChainsInput "t0")

/-- Fixture: the same registry after removing chain `chainA`. -/
def dupChainsState2 : MultiChainBasketRegistry.State :=
  MultiChainBasketRegistry.applyOp dupChainsState1
    (.removeChain "b1" "chainA" "t1")

/-- Fixture: a basket creation input whose weights total 80. -/
def badBasketInput : BasketInput :=
  { id := "bad", name := "Bad Basket", symbol := "BAD", description := none,
    assets := [{ assetId := "usd", weight := 50, proportion := "50" },
               { assetId := "gold", weight := 30, proportion := "30" }],
    status := .active }

/-- Fixture: a mint request for the 60/40 fixture basket. -/
def demoMintReq : MintRequest :=
  { basketId := "bkt", beneficiary := "0xW", amount := "1000",
    amountDec := 1000, assetTypeFilter := none }

/-- Fixture: the minted-asset list produced for `demoMintReq`. -/
def demoMinted : List MintedAsset :=
  [{ assetId := "usd", symbol := "USD", type := .monetary, amount := 600,
     contractAddress := "0xA", txHash := none },
   { assetId := "gold", symbol := "AU", type := .physicalBacked, amount := 400,
     contractAddress := "0xB", txHash := none }]

/-- Fixture: the pending mint record created for `demoMintReq`. -/
def demoMintRec : MintRecord :=
  { id := "mint-TX1", basketId := "bkt", transactionId := "TX1",
    beneficiary := "0xW", amount := "1000", assets := demoMinted,
    status := .pending, createdAt := "t5", completedAt := none,
    error := none }

/-- Fixture: the mint-state map holding exactly the pending record. -/
def demoMintState1 : MintState.State := { mints := [("mint-TX1", demoMintRec)] }

/-- Fixture: mint-state trace — a record is created pending. -/
def mintTraceSt1 : MintState.State :=
  MintState.applyEvent MintState.initState (.create "bk" "T1" "ben" "10" [] "t0")

/-- Fixture: mint-state trace — the record is then completed. -/
def mintTraceSt2 : MintState.State :=
  MintState.applyEvent mintTraceSt1 (.update "mint-T1" { status := some .completed } "t1")

/-- Fixture: the completed record stored in `mintTraceSt2`. -/
def mintTraceRec2 : MintRecord :=
  { id := "mint-T1", basketId := "bk", transactionId := "T1",
    beneficiary := "ben", amount := "10", assets := [],
    status := .completed, createdAt := "t0", completedAt := some "t1",
    error := none }

/-- Fixture: a workflow payload asset whose registered backend asset
(`wideAsset`) declares 18 decimals. -/
def widePayload : WorkflowAssetPayload :=
  { assetId := "wide", symbol := "WIDE", type := .digitalAsset, amount := 2,
    contractAddress := "0xC", chainId := "eth" }

/-- Fixture: the backend registration of the `wide` asset, carrying the
per-asset decimal value 18. -/
def wideAsset : Asset :=
  { id := "wide", type := .digitalAsset, name := "Wide", symbol := "WIDE",
    decimals := 18, contractAddress := "0xC", createdAt := "t0",
    updatedAt := "t0" }

/-! # Theorems

First the bridge lemmas identifying the reducible rational operations
with the field operations of `ℚ`, then the rounding-model lemmas, the
association-list lemmas, the registry invariants, and finally the
claim theorems with their witnesses and counterexamples. -/

theorem denQ_ne_zero (r : ℚ) : ((r.den : ℚ)) ≠ 0 := by
  exact_mod_cast r.den_nz

theorem ratNum_eq_mul_den (r : ℚ) : (r.num : ℚ) = r * r.den :=
  (div_eq_iff (denQ_ne_zero r)).mp (Rat.num_div_den r)

theorem qMul_eq (a b : ℚ) : qMul a b = a * b := by
  rw [qMul, Rat.mkRat_eq_divInt, Rat.divInt_eq_div,
    div_eq_iff (by push_cast; exact mul_ne_zero (denQ_ne_zero a) (denQ_ne_zero b))]
  push_cast
  rw [ratNum_eq_mul_den a, ratNum_eq_mul_den b]
  ring

theorem qAdd_eq (a b : ℚ) : qAdd a b = a + b := by
  rw [qAdd, Rat.mkRat_eq_divInt, Rat.divInt_eq_div,
    div_eq_iff (by push_cast; exact mul_ne_zero (denQ_ne_zero a) (denQ_ne_zero b))]
  push_cast
  rw [ratNum_eq_mul_den a, ratNum_eq_mul_den b]
  ring

theorem qSub_eq (a b : ℚ) : qSub a b = a - b := by
  rw [qSub, Rat.mkRat_eq_divInt, Rat.divInt_eq_div,
    div_eq_iff (by push_cast; exact mul_ne_zero (denQ_ne_zero a) (denQ_ne_zero b))]
  push_cast
  rw [ratNum_eq_mul_den a, ratNum_eq_mul_den b]
  ring

theorem qDiv_eq (a b : ℚ) : qDiv a b = a / b := by
  rcases eq_or_ne b 0 with rfl | hb
  · show qMul a (Rat.divInt (1 : ℕ) 0) = a / 0
    rw [Rat.divInt_zero, qMul_eq, mul_zero, div_zero]
  · rw [qDiv, qMul_eq, Rat.divInt_eq_div]
    conv_rhs => rw [← Rat.num_div_den b]
    rw [div_div_eq_mul_div, mul_div_assoc]
    push_cast
    ring

theorem qPow2_eq (e : ℤ) : qPow2 e = (2 : ℚ) ^ e := by
  rw [qPow2]
  split_ifs with h
  · push_cast
    conv_rhs => rw [← Int.toNat_of_nonneg h]
    rw [zpow_natCast]
  · rw [Rat.divInt_eq_div]
    push_cast
    rw [one_div, ← zpow_natCast (2 : ℚ), ← zpow_neg]
    congr 1
    omega

/-! ## Rounding-model lemmas: `roundF64` is exact on representable
natural numbers (those below `2 ^ 53`) -/

theorem log2fuel_pow_le :
    ∀ f n : ℕ, 1 ≤ n → n ≤ f → 2 ^ log2fuel f n ≤ n := by
  intro f
  induction f with
  | zero => intro n h1 h2; omega
  | succ f ih =>
    intro n h1 h2
    rw [log2fuel]
    split_ifs with h
    · simpa using h1
    · have hn2 : 2 ≤ n := by omega
      have h1' : 1 ≤ n / 2 := by omega
      have h2' : n / 2 ≤ f := by omega
      have hrec := ih (n / 2) h1' h2'
      have hmul : 2 * (n / 2) ≤ n := by omega
      calc 2 ^ (log2fuel f (n / 2) + 1) = 2 * 2 ^ log2fuel f (n / 2) := by ring
        _ ≤ 2 * (n / 2) := by omega
        _ ≤ n := hmul

theorem natLog2_le_of_lt_pow {n k : ℕ} (h : n < 2 ^ (k + 1)) : natLog2 n ≤ k := by
  rcases Nat.eq_zero_or_pos n with rfl | hn
  · simp [natLog2, log2fuel]
  · have hle : 2 ^ natLog2 n ≤ n := log2fuel_pow_le n n hn le_rfl
    by_contra hgt
    have hpow : 2 ^ (k + 1) ≤ 2 ^ natLog2 n :=
      Nat.pow_le_pow_right (by norm_num) (by omega)
    omega

theorem ratFloor_intCast (m : ℤ) : ((m : ℚ)).floor = m := by
  simp [Rat.floor, Rat.den_intCast, Rat.num_intCast]

theorem rne_intCast (m : ℤ) : rne ((m : ℚ)) = m := by
  have hf : ((m : ℚ)).floor = m := ratFloor_intCast m
  have hsub : qSub (m : ℚ) ((((m : ℚ)).floor : ℤ) : ℚ) = 0 := by
    rw [hf, qSub_eq, sub_self]
  have hhalf : (0 : ℚ) < Rat.divInt 1 2 := by
    rw [Rat.divInt_eq_div]; norm_num
  rw [rne, hsub, if_pos hhalf, hf]

theorem rne_natCast (n : ℕ) : rne ((n : ℚ)) = n := by
  rw [← Int.cast_natCast, rne_intCast]

theorem floorLog2_natCast {n : ℕ} (hn : 1 ≤ n) :
    floorLog2 (n : ℚ) = (natLog2 n : ℤ) := by
  rw [floorLog2, if_pos (by exact_mod_cast hn)]
  rw [show ((n : ℚ)).floor = (n : ℤ) from by
    rw [← Int.cast_natCast]; exact ratFloor_intCast n]
  rw [Int.toNat_natCast]

theorem roundF64_natCast {n : ℕ} (h : n < 2 ^ 53) : roundF64 (n : ℚ) = n := by
  rcases Nat.eq_zero_or_pos n with rfl | hn
  · simp [roundF64]
  · have h0 : ((n : ℚ)) ≠ 0 := Nat.cast_ne_zero.mpr (by omega)
    have hneg : ¬ ((n : ℚ) < 0) := not_lt.mpr (by positivity)
    rw [roundF64, if_neg h0, if_neg hneg]
    have hlog : floorLog2 (n : ℚ) = (natLog2 n : ℤ) := floorLog2_natCast hn
    have hL : natLog2 n ≤ 52 := natLog2_le_of_lt_pow (k := 52) h
    rw [roundF64Pos, hlog]
    have he : (52 : ℤ) - (natLog2 n : ℤ) = ((52 - natLog2 n : ℕ) : ℤ) := by
      omega
    rw [he]
    have hq : qMul (n : ℚ) (qPow2 ((52 - natLog2 n : ℕ) : ℤ)) =
        ((n * 2 ^ (52 - natLog2 n) : ℕ) : ℚ) := by
      rw [qMul_eq, qPow2_eq, zpow_natCast]
      push_cast
      ring
    rw [hq, rne_natCast, qDiv_eq, qPow2_eq, zpow_natCast]
    push_cast
    rw [mul_div_assoc, div_self (by positivity), mul_one]

/-! ## Association-list lemmas -/

theorem lookupKey_setKey {α : Type} (m : List (String × α)) (k k' : String) (v : α) :
    lookupKey (setKey m k v) k' = if k' = k then some v else lookupKey m k' := by
  induction m with
  | nil =>
    rcases eq_or_ne k' k with h | h
    · subst h; simp [setKey, lookupKey]
    · simp only [setKey, lookupKey]
      rw [if_neg (fun hh : k = k' => h hh.symm), if_neg h]
  | cons p rest ih =>
    rw [setKey]
    rcases eq_or_ne p.1 k with h1 | h1
    · rw [if_pos h1, lookupKey]
      rcases eq_or_ne k' k with h2 | h2
      · subst h2; rw [if_pos rfl, if_pos rfl]
      · rw [if_neg (fun hh => h2 hh.symm), if_neg h2, lookupKey,
          if_neg (fun hh : p.1 = k' => h2 ((h1.symm.trans hh).symm))]
    · rw [if_neg h1, lookupKey]
      rcases eq_or_ne p.1 k' with h3 | h3
      · rw [if_pos h3, lookupKey, if_pos h3,
          if_neg (fun hh : k' = k => h1 (h3.trans hh))]
      · rw [if_neg h3, ih, lookupKey, if_neg h3]

theorem isSome_lookupKey_setKey {α : Type} {m : List (String × α)} {k' : String}
    (k : String) (v : α) (h : (lookupKey m k').isSome = true) :
    (lookupKey (setKey m k v) k').isSome = true := by
  rw [lookupKey_setKey]
  split_ifs with hk
  · rfl
  · exact h

theorem filterMap_length_add_countP {α β : Type} (f : α → Option β) (l : List α) :
    (l.filterMap f).length + l.countP (fun a => (f a).isNone) = l.length := by
  induction l with
  | nil => simp
  | cons a l ih =>
    rcases hf : f a with _ | b <;>
      simp [List.filterMap_cons, hf, List.countP_cons, ← ih] <;> omega

/-! ## The single-chain registry invariant -/

namespace AssetRegistry

theorem registerAsset_wf {st : State} {input : AssetInput} {now : String}
    {p : Asset × State}
    (heq : registerAsset st input now = .ok p)
    (ih : ∀ id b, lookupKey st.baskets id = some b →
      (∀ ba ∈ b.assets, (lookupKey st.assets ba.assetId).isSome = true) ∧
      sumWeights b.assets = 100) :
    ∀ id b, lookupKey p.2.baskets id = some b →
      (∀ ba ∈ b.assets, (lookupKey p.2.assets ba.assetId).isSome = true) ∧
      sumWeights b.assets = 100 := by
  rw [registerAsset] at heq
  by_cases hdup : (lookupKey st.assets input.id).isSome = true
  · rw [if_pos hdup] at heq
    exact absurd heq (by simp)
  · rw [if_neg hdup] at heq
    simp only [Except.ok.injEq] at heq
    subst heq
    intro id b hb
    obtain ⟨hexist, hsum⟩ := ih id b hb
    refine ⟨fun ba hba => ?_, hsum⟩
    exact isSome_lookupKey_setKey _ _ (hexist ba hba)

theorem createBasket_wf {st : State} {input : BasketInput} {now : String}
    {p : Basket × State}
    (heq : createBasket st input now = .ok p)
    (ih : ∀ id b, lookupKey st.baskets id = some b →
      (∀ ba ∈ b.assets, (lookupKey st.assets ba.assetId).isSome = true) ∧
      sumWeights b.assets = 100) :
    ∀ id b, lookupKey p.2.baskets id = some b →
      (∀ ba ∈ b.assets, (lookupKey p.2.assets ba.assetId).isSome = true) ∧
      sumWeights b.assets = 100 := by
  rw [createBasket] at heq
  by_cases hdup : (lookupKey st.baskets input.id).isSome = true
  · rw [if_pos hdup] at heq
    exact absurd heq (by simp)
  · rw [if_neg hdup] at heq
    rcases hfind : input.assets.find? (fun ba => (lookupKey st.assets ba.assetId).isNone)
      with _ | ba
    · simp only [hfind] at heq
      by_cases hsum : sumWeights input.assets = 100
      · rw [if_pos hsum] at heq
        simp only [Except.ok.injEq] at heq
        subst heq
        intro id b hb
        rw [lookupKey_setKey] at hb
        split_ifs at hb with hid
        · rw [Option.some.injEq] at hb
          subst hb
          refine ⟨fun ba hba => ?_, hsum⟩
          have hnone := List.find?_eq_none.mp hfind ba hba
          cases hlk : lookupKey st.assets ba.assetId with
          | none => exact absurd (by simp [hlk]) hnone
          | some a => rfl
        · obtain ⟨hexist, hsum'⟩ := ih id b hb
          exact ⟨hexist, hsum'⟩
      · rw [if_neg hsum] at heq
        exact absurd heq (by simp)
    · simp [hfind] at heq

theorem reachable_wf {st : State} (h : Reachable st) :
    ∀ id b, lookupKey st.baskets id = some b →
      (∀ ba ∈ b.assets, (lookupKey st.assets ba.assetId).isSome = true) ∧
      sumWeights b.assets = 100 := by
  induction h with
  | init => intro id b hb; simp [initState, lookupKey] at hb
  | step h op ih =>
    rename_i st'
    cases op with
    | regAsset input now =>
      simp only [applyOp]
      split
      · next p heq => exact registerAsset_wf heq ih
      · exact ih
    | mkBasket input now =>
      simp only [applyOp]
      split
      · next p heq => exact createBasket_wf heq ih
      · exact ih

theorem reachable_foldl (ops : List Op) (st : State) (h : Reachable st) :
    Reachable (ops.foldl applyOp st) := by
  induction ops generalizing st with
  | nil => simpa
  | cons op ops ih => exact ih _ (h.step op)

theorem reachable_demoReg : Reachable demoReg :=
  reachable_foldl _ _ .init

end AssetRegistry

/-! ## Claim C1: one expansion entry per basket-asset entry -/

/-- C1: for every reachable registry state, every stored basket and
every total amount, `expandBasket` returns exactly one entry per
basket-asset entry of the basket; in particular, for the 60/40 fixture
basket and total amount 1000 the returned amounts are exactly 600 and
400. -/
theorem c1_expand_one_entry_per_basket_asset :
    (∀ st, AssetRegistry.Reachable st → ∀ id b dec,
      lookupKey st.baskets id = some b →
      ∃ l, AssetRegistry.expandBasket st id dec = .ok l ∧
        l.length = b.assets.length) ∧
    expandedAmounts demoReg "bkt" 1000 = some [600, 400] := by
  constructor
  · intro st hst id b dec hb
    refine ⟨b.assets.filterMap (fun ba => (lookupKey st.assets ba.assetId).map
      (fun asset => (asset, AssetRegistry.expandAmount (roundF64 dec) ba.weight))),
      by simp [AssetRegistry.expandBasket, hb], ?_⟩
    have hwf := (AssetRegistry.reachable_wf hst id b hb).1
    have h1 := filterMap_length_add_countP
      (fun ba => (lookupKey st.assets ba.assetId).map
        (fun asset => (asset, AssetRegistry.expandAmount (roundF64 dec) ba.weight)))
      b.assets
    have h2 : b.assets.countP (fun ba => ((lookupKey st.assets ba.assetId).map
        (fun asset => (asset, AssetRegistry.expandAmount (roundF64 dec) ba.weight))).isNone) = 0 := by
      rw [List.countP_eq_zero]
      intro ba hba
      obtain ⟨a, ha⟩ := Option.isSome_iff_exists.mp (hwf ba hba)
      simp [ha]
    omega
  · decide

/-- C1 witness: the general statement applied to the fixture registry,
the 60/40 basket and amount 1000. -/
theorem c1_expand_one_entry_per_basket_asset_witness :
    ∃ l, AssetRegistry.expandBasket demoReg "bkt" 1000 = .ok l ∧
      l.length = demoBasket.assets.length :=
  c1_expand_one_entry_per_basket_asset.1 demoReg AssetRegistry.reachable_demoReg
    "bkt" demoBasket 1000 (by decide)

/-! ## Claim C2: per-entry amounts and decimal exactness -/

/-- C2 (amended): the per-entry amount of `expandBasket` is computed in
binary64 floating-point, not exact decimal arithmetic; it agrees with
the exact value `totalAmount * weight / 100` whenever `totalAmount` is
a natural number with `totalAmount * weight` divisible by 100 and below
`2 ^ 53`, but can drift otherwise (see the counterexample). -/
theorem c2_expand_amount_exact_when_divisible :
    ∀ n w : ℕ, n < 2 ^ 53 → n * w < 2 ^ 53 → 100 ∣ n * w →
      AssetRegistry.expandAmount (roundF64 (n : ℚ)) (w : ℚ) =
        ((n * w / 100 : ℕ) : ℚ) := by
  intro n w hn hnw hdvd
  rw [roundF64_natCast hn, AssetRegistry.expandAmount, jsMul, qMul_eq]
  have h1 : ((n : ℚ)) * w = ((n * w : ℕ) : ℚ) := by push_cast; ring
  rw [h1, roundF64_natCast hnw, jsDiv, qDiv_eq]
  have h2 : ((n * w : ℕ) : ℚ) / 100 = ((n * w / 100 : ℕ) : ℚ) := by
    rw [Nat.cast_div hdvd (by norm_num)]
    norm_num
  rw [h2, roundF64_natCast (lt_of_le_of_lt (Nat.div_le_self _ _) hnw)]

/-- C2 witness: exactness at amount 1000 and weight 60. -/
theorem c2_expand_amount_exact_when_divisible_witness :
    (1000 : ℕ) < 2 ^ 53 ∧ 1000 * 60 < 2 ^ 53 ∧ 100 ∣ 1000 * 60 ∧
    AssetRegistry.expandAmount (roundF64 ((1000 : ℕ) : ℚ)) ((60 : ℕ) : ℚ) =
      ((1000 * 60 / 100 : ℕ) : ℚ) :=
  ⟨by norm_num, by norm_num, by norm_num,
    c2_expand_amount_exact_when_divisible 1000 60 (by norm_num) (by norm_num)
      (by norm_num)⟩

/-- C2 counterexample: expanding the 30/70 fixture basket at total
amount 0.1 returns binary64-drifted amounts, not the exact decimal
values 0.03 and 0.07 that exact arithmetic would give. -/
theorem c2_expand_amount_drift :
    expandedAmounts demoReg "bkt2" (mkRat 1 10) =
      some [mkRat 1080863910568919 36028797018963968,
            mkRat 1261007895663739 18014398509481984] ∧
    expandedAmounts demoReg "bkt2" (mkRat 1 10) ≠
      some [mkRat 3 100, mkRat 7 100] ∧
    (mkRat 1 10 : ℚ) = 1 / 10 ∧ (mkRat 3 100 : ℚ) = 3 / 100 ∧
    (mkRat 7 100 : ℚ) = 7 / 100 := by
  refine ⟨by decide, by decide, ?_, ?_, ?_⟩ <;>
    rw [Rat.mkRat_eq_divInt, Rat.divInt_eq_div] <;> norm_num

/-! ## Claim C4: creation requires weights summing to exactly 100 -/

/-- C4: basket creation succeeds only when the weights sum to exactly
100; any other sum makes creation fail, and — once the earlier
duplicate-id and asset-existence validations pass — the error is the
weight error carrying the actual sum; every basket stored in a
reachable registry state has weight sum 100; the multi-chain
`createBasket` enforces the same weight condition. -/
theorem c4_create_basket_weights :
    (∀ st input now b st',
      AssetRegistry.createBasket st input now = .ok (b, st') →
      AssetRegistry.sumWeights input.assets = 100) ∧
    (∀ st input now, AssetRegistry.sumWeights input.assets ≠ 100 →
      ∃ e, AssetRegistry.createBasket st input now = .error e) ∧
    (∀ st input now, lookupKey st.baskets input.id = none →
      (∀ ba ∈ input.assets, (lookupKey st.assets ba.assetId).isSome = true) →
      AssetRegistry.sumWeights input.assets ≠ 100 →
      AssetRegistry.createBasket st input now =
        .error (.invalidWeights (AssetRegistry.sumWeights input.assets))) ∧
    (∀ st, AssetRegistry.Reachable st → ∀ id b,
      lookupKey st.baskets id = some b →
      AssetRegistry.sumWeights b.assets = 100) ∧
    (∀ st input now b st',
      MultiChainBasketRegistry.createBasket st input now = .ok (b, st') →
      MultiChainBasketRegistry.sumWeightsC input.assets = 100) := by
  refine ⟨?_, ?_, ?_, ?_, ?_⟩
  · intro st input now b st' heq
    rw [AssetRegistry.createBasket] at heq
    by_cases hdup : (lookupKey st.baskets input.id).isSome = true
    · rw [if_pos hdup] at heq
      exact absurd heq (by simp)
    · rw [if_neg hdup] at heq
      rcases hfind : input.assets.find?
          (fun ba => (lookupKey st.assets ba.assetId).isNone) with _ | ba
      · simp only [hfind] at heq
        by_cases hsum : AssetRegistry.sumWeights input.assets = 100
        · exact hsum
        · rw [if_neg hsum] at heq
          exact absurd heq (by simp)
      · simp [hfind] at heq
  · intro st input now hsum
    rw [AssetRegistry.createBasket]
    by_cases hdup : (lookupKey st.baskets input.id).isSome = true
    · exact ⟨_, by rw [if_pos hdup]⟩
    · rw [if_neg hdup]
      rcases hfind : input.assets.find?
          (fun ba => (lookupKey st.assets ba.assetId).isNone) with _ | ba
      · refine ⟨.invalidWeights (AssetRegistry.sumWeights input.assets), ?_⟩
        simp only [hfind]
        rw [if_neg hsum]
      · exact ⟨.assetNotFound ba.assetId, by simp only [hfind]⟩
  · intro st input now hno hall hsum
    rw [AssetRegistry.createBasket, if_neg (by simp [hno])]
    have hfind : input.assets.find?
        (fun ba => (lookupKey st.assets ba.assetId).isNone) = none := by
      rw [List.find?_eq_none]
      intro ba hba
      obtain ⟨a, ha⟩ := Option.isSome_iff_exists.mp (hall ba hba)
      simp [ha]
    simp only [hfind]
    rw [if_neg hsum]
  · intro st hst id b hb
    exact (AssetRegistry.reachable_wf hst id b hb).2
  · intro st input now b st' heq
    rw [MultiChainBasketRegistry.createBasket] at heq
    by_cases hdup : (lookupKey st.baskets input.id).isSome = true
    · rw [if_pos hdup] at heq
      exact absurd heq (by simp)
    · rw [if_neg hdup] at heq
      by_cases hlen : input.supportedChains.length = 0
      · rw [if_pos hlen] at heq
        exact absurd heq (by simp)
      · rw [if_neg hlen] at heq
        by_cases hdef : input.supportedChains.contains input.defaultChain
        · rw [if_neg (by simpa using hdef)] at heq
          by_cases hsum : MultiChainBasketRegistry.sumWeightsC input.assets = 100
          · exact hsum
          · rw [if_neg hsum] at heq
            exact absurd heq (by simp)
        · rw [if_pos (by simpa using hdef)] at heq
          exact absurd heq (by simp)

/-- C4 witness: creating the weight-80 fixture basket over the fixture
registry fails with the weight error reporting 80, and the stored 60/40
fixture basket has weight sum 100. -/
theorem c4_create_basket_weights_witness :
    (AssetRegistry.createBasket demoReg badBasketInput "t9" =
      .error (.invalidWeights (AssetRegistry.sumWeights badBasketInput.assets))) ∧
    AssetRegistry.sumWeights demoBasket.assets = 100 :=
  ⟨c4_create_basket_weights.2.2.1 demoReg badBasketInput "t9" (by decide)
      (by decide) (by decide),
    c4_create_basket_weights.2.2.2.1 demoReg AssetRegistry.reachable_demoReg
      "bkt" demoBasket (by decide)⟩

/-! ## Claim C10: entries with missing assets are silently skipped -/

/-- C10: for every registry state and stored basket, `expandBasket`
raises no error even when entries reference asset ids missing from the
assets map; it returns one entry per present asset (so possibly fewer
entries than the basket has), each produced from a present entry, and
no entry for the missing ids; the `ghostReg` fixture shows a missing
asset being skipped. -/
theorem c10_expand_skips_missing_assets :
    (∀ st id b dec, lookupKey st.baskets id = some b →
      ∃ l, AssetRegistry.expandBasket st id dec = .ok l ∧
        l.length + b.assets.countP
          (fun ba => (lookupKey st.assets ba.assetId).isNone) =
          b.assets.length ∧
        ∀ e ∈ l, ∃ ba ∈ b.assets,
          lookupKey st.assets ba.assetId = some e.1 ∧
          e.2 = AssetRegistry.expandAmount (roundF64 dec) ba.weight) ∧
    expandedAmounts ghostReg "gbk" 1000 = some [600] ∧
    (lookupKey ghostReg.assets "phantom").isNone = true ∧
    ghostBasket.assets.length = 2 := by
  refine ⟨?_, by decide, by decide, by decide⟩
  intro st id b dec hb
  refine ⟨b.assets.filterMap (fun ba => (lookupKey st.assets ba.assetId).map
    (fun asset => (asset, AssetRegistry.expandAmount (roundF64 dec) ba.weight))),
    by simp [AssetRegistry.expandBasket, hb], ?_, ?_⟩
  · have h1 := filterMap_length_add_countP
      (fun ba => (lookupKey st.assets ba.assetId).map
        (fun asset => (asset, AssetRegistry.expandAmount (roundF64 dec) ba.weight)))
      b.assets
    have h2 : b.assets.countP (fun ba => ((lookupKey st.assets ba.assetId).map
        (fun asset => (asset, AssetRegistry.expandAmount (roundF64 dec) ba.weight))).isNone) =
        b.assets.countP (fun ba => (lookupKey st.assets ba.assetId).isNone) := by
      apply List.countP_congr
      intro ba _
      cases lookupKey st.assets ba.assetId <;> simp
    omega
  · intro e he
    rw [List.mem_filterMap] at he
    obtain ⟨ba, hba, hsome⟩ := he
    rcases hlk : lookupKey st.assets ba.assetId with _ | a
    · rw [hlk] at hsome
      exact absurd hsome (by simp)
    · rw [hlk] at hsome
      simp only [Option.map_some', Option.some.injEq] at hsome
      subst hsome
      exact ⟨ba, hba, hlk, rfl⟩

/-- C10 witness: the general statement applied to the fixture state
whose basket references the missing asset id. -/
theorem c10_expand_skips_missing_assets_witness :
    ∃ l, AssetRegistry.expandBasket ghostReg "gbk" 1000 = .ok l ∧
      l.length + ghostBasket.assets.countP
        (fun ba => (lookupKey ghostReg.assets ba.assetId).isNone) =
        ghostBasket.assets.length ∧
      ∀ e ∈ l, ∃ ba ∈ ghostBasket.assets,
        lookupKey ghostReg.assets ba.assetId = some e.1 ∧
        e.2 = AssetRegistry.expandAmount (roundF64 1000) ba.weight :=
  c10_expand_skips_missing_assets.1 ghostReg "gbk" ghostBasket 1000 (by decide)

/-! ## Claim C3: the chain-set invariant under registry operations -/

/-- C3 (violation witness): creating a multi-chain basket whose
supported-chain list holds the same chain id twice — accepted by every
`createBasket` validation — and then removing that chain succeeds
(`removeChainFromBasket` throws nothing) yet leaves the stored basket
with an empty supported-chain list and an undefined default chain,
violating the never-empty / default-present invariant the last-chain
guard is meant to protect. -/
theorem c3_dup_chain_removal_empties_basket :
    (lookupKey dupChainsState1.baskets "b1").map
        (fun b => (b.supportedChains, b.defaultChain)) =
      some (["chainA", "chainA"], some "chainA") ∧
    exceptIsOk (MultiChainBasketRegistry.removeChainFromBasket dupChainsState1
      "b1" "chainA" "t1") = true ∧
    (lookupKey dupChainsState2.baskets "b1").map
        (fun b => (b.supportedChains, b.defaultChain)) =
      some ([], none) := by
  refine ⟨by decide, by decide, by decide⟩

/-! ## Claim C5: the proof-of-reserve mint gate -/

/-- C5 (amended): `checkMintEligibility` accepts exactly when the POR
flag is set, the requested amount is at most the reserve balance, and
the simulated ACE policy draw passes — so a mint with `R > B` or an
invalid POR flag is always rejected, but `R ≤ B` with valid POR does
not suffice for acceptance; and the one-hour POR expiry clock of the
flow board reports expiry exactly when the attestation age reaches
3 600 000 ms. -/
theorem c5_mint_gate_accepts_iff :
    ∀ (porValid : Bool) (reserveBalance requestedAmount : ℤ)
      (policyCheck : Bool) (nowMs verifiedMs : ℤ),
      ((checkMintEligibility porValid reserveBalance requestedAmount
          policyCheck).success = true ↔
        (porValid = true ∧ requestedAmount ≤ reserveBalance ∧
          policyCheck = true)) ∧
      (porExpired nowMs verifiedMs = true ↔
        3600000 ≤ nowMs - verifiedMs) := by
  intro porValid reserveBalance requestedAmount policyCheck nowMs verifiedMs
  constructor
  · simp [checkMintEligibility, Bool.and_eq_true, decide_eq_true_iff, and_assoc]
  · rw [porExpired, decide_eq_true_iff, qSub_eq, qDiv_eq, sub_nonpos,
      le_div_iff₀ (by norm_num : (0 : ℚ) < 1000)]
    constructor
    · intro hle
      have : ((3600000 : ℤ) : ℚ) ≤ ((nowMs - verifiedMs : ℤ) : ℚ) := by
        push_cast
        push_cast at hle
        linarith
      exact_mod_cast this
    · intro hle
      have : ((3600000 : ℤ) : ℚ) ≤ ((nowMs - verifiedMs : ℤ) : ℚ) := by
        exact_mod_cast hle
      push_cast
      push_cast at this
      linarith

/-- C5 counterexample: a request with a valid POR flag and a requested
amount below the reserve balance is still rejected when the simulated
ACE policy draw fails, so acceptance does not follow from the two
conditions of the claim alone. -/
theorem c5_mint_gate_policy_reject :
    (checkMintEligibility true 5000000 1000 false).success = false ∧
    (checkMintEligibility true 5000000 1000 false).porValid = true ∧
    (checkMintEligibility true 5000000 1000 false).reserveSufficient = true := by
  refine ⟨by decide, by decide, by decide⟩

/-! ## Claim C8: the decimal-scaling step before submission -/

/-- C8 (amended): the submission step scales every amount by
`10 ^ decimals` where `decimals` is the single global workflow config
value (6 when unset); the asset's own decimal value is never consulted,
and whenever it differs from the global value the computed scaling
provably differs from per-asset scaling for any nonzero amount. -/
theorem c8_scaling_uses_global_decimals :
    ∀ (configDecimals : Option ℕ) (p : WorkflowAssetPayload) (a : Asset),
      mintScaledAmount configDecimals p =
        p.amount * 10 ^ (configDecimals.getD 6) ∧
      (a.decimals ≠ configDecimals.getD 6 → 0 < p.amount →
        mintScaledAmount configDecimals p ≠ p.amount * 10 ^ a.decimals) := by
  intro configDecimals p a
  refine ⟨rfl, fun hne hpos heq => ?_⟩
  rw [mintScaledAmount] at heq
  have hcancel : (10 : ℤ) ^ (configDecimals.getD 6) = 10 ^ a.decimals :=
    mul_left_cancel₀ (ne_of_gt hpos) heq
  have hnat : (10 : ℕ) ^ (configDecimals.getD 6) = 10 ^ a.decimals := by
    exact_mod_cast hcancel
  exact hne (Nat.pow_right_injective (by norm_num) hnat).symm

/-- C8 witness: the amended statement applied to the 18-decimals
fixture asset under a config with 6 decimals. -/
theorem c8_scaling_uses_global_decimals_witness :
    mintScaledAmount (some 6) widePayload =
      widePayload.amount * 10 ^ ((some 6 : Option ℕ).getD 6) ∧
    wideAsset.decimals ≠ (some 6 : Option ℕ).getD 6 ∧ (0 : ℤ) < widePayload.amount ∧
    mintScaledAmount (some 6) widePayload ≠
      widePayload.amount * 10 ^ wideAsset.decimals :=
  ⟨(c8_scaling_uses_global_decimals (some 6) widePayload wideAsset).1,
    by decide, by decide,
    (c8_scaling_uses_global_decimals (some 6) widePayload wideAsset).2
      (by decide) (by decide)⟩

/-- C8 counterexample: for an amount of 2 the workflow scales by
`10 ^ 6` from the global config, not by the asset's registered
`10 ^ 18`. -/
theorem c8_scaling_ignores_asset_decimals :
    mintScaledAmount (some 6) widePayload = 2000000 ∧
    widePayload.amount * 10 ^ wideAsset.decimals = 2000000000000000000 ∧
    mintScaledAmount (some 6) widePayload ≠
      widePayload.amount * 10 ^ wideAsset.decimals := by
  refine ⟨by decide, by decide, by decide⟩

/-! ## Claim C6: the pending record exists before the workflow runs -/

/-- C6: whenever the orchestrator accepts a mint request (basket found,
expansion nonempty after the optional type filter), the pre-workflow
phase creates a `pending` mint record with no completion timestamp,
visible in the mint-state service under its derived id, and the full
`triggerMint` continues from exactly that state — the record exists
before the submission workflow resolves. -/
theorem c6_pending_record_before_workflow :
    ∀ reg ms req txId now rec ms1 minted,
      CREWorkflow.triggerMintPhase1 reg ms req txId now =
        .ok (rec, ms1, minted) →
      MintState.getMintRecord ms1 rec.id = some rec ∧
      rec.status = .pending ∧ rec.completedAt = none ∧
      rec.id = "mint-" ++ txId ∧
      ∀ simSuccess simError now2,
        CREWorkflow.triggerMint reg ms req txId now simSuccess simError now2 =
          CREWorkflow.triggerMintFinish ms1 rec minted txId simSuccess
            simError now2 := by
  intro reg ms req txId now rec ms1 minted h
  have h0 := h
  rw [CREWorkflow.triggerMintPhase1] at h
  split at h
  · exact absurd h (by simp)
  · split at h
    · exact absurd h (by simp)
    · split at h
      · simp only [] at h
        split at h
        · exact absurd h (by simp)
        · simp only [Except.ok.injEq, Prod.mk.injEq] at h
          obtain ⟨hrec, hms1, hmint⟩ := h
          subst hrec
          subst hms1
          subst hmint
          refine ⟨?_, rfl, rfl, rfl, ?_⟩
          · simp [MintState.createMintRecord, MintState.getMintRecord,
              lookupKey_setKey]
          · intro simSuccess simError now2
            rw [CREWorkflow.triggerMint, h0]
      · simp only [] at h
        split at h
        · exact absurd h (by simp)
        · simp only [Except.ok.injEq, Prod.mk.injEq] at h
          obtain ⟨hrec, hms1, hmint⟩ := h
          subst hrec
          subst hms1
          subst hmint
          refine ⟨?_, rfl, rfl, rfl, ?_⟩
          · simp [MintState.createMintRecord, MintState.getMintRecord,
              lookupKey_setKey]
          · intro simSuccess simError now2
            rw [CREWorkflow.triggerMint, h0]

/-- C6 witness: the statement applied to the fixture registry,
request, transaction id and timestamps. -/
theorem c6_pending_record_before_workflow_witness :
    MintState.getMintRecord demoMintState1 demoMintRec.id = some demoMintRec ∧
    demoMintRec.status = .pending ∧ demoMintRec.completedAt = none ∧
    demoMintRec.id = "mint-" ++ "TX1" ∧
    ∀ simSuccess simError now2,
      CREWorkflow.triggerMint demoReg MintState.initState demoMintReq "TX1"
          "t5" simSuccess simError now2 =
        CREWorkflow.triggerMintFinish demoMintState1 demoMintRec demoMinted
          "TX1" simSuccess simError now2 :=
  c6_pending_record_before_workflow demoReg MintState.initState demoMintReq
    "TX1" "t5" demoMintRec demoMintState1 demoMinted (by decide)

/-! ## Claim C7: terminal states and the completion timestamp -/

/-- C7 (amended): along every trace of mint-state operations, a stored
record's completion timestamp is set exactly when its status is
terminal, and every status-bearing update sets a terminal status.
The service does not, however, prevent further updates after a
terminal state (see the counterexample: a second update silently
overwrites). -/
theorem c7_completedAt_iff_terminal :
    (∀ st, MintState.Reachable st → ∀ id r,
      lookupKey st.mints id = some r →
      (r.completedAt.isSome = true ↔ r.status ≠ .pending)) ∧
    (∀ st id u now r st',
      MintState.updateMintRecord st id u now = .ok (r, st') →
      u.status.isSome = true → r.status ≠ .pending) := by
  have hupd : ∀ st id u now r st',
      MintState.updateMintRecord st id u now = .ok (r, st') →
      u.status.isSome = true → r.status ≠ .pending := by
    intro st id u now r st' heq hsome
    rw [MintState.updateMintRecord] at heq
    split at heq
    · exact absurd heq (by simp)
    · simp only [Except.ok.injEq, Prod.mk.injEq] at heq
      obtain ⟨hr, _⟩ := heq
      subst hr
      obtain ⟨s, hs⟩ := Option.isSome_iff_exists.mp hsome
      rw [hs]
      cases s <;> simp [UpdStatus.toStatus]
  refine ⟨?_, hupd⟩
  intro st hst
  induction hst with
  | init => intro id r hr; simp [MintState.initState, lookupKey] at hr
  | step h e ih =>
    cases e with
    | create basketId transactionId beneficiary amount assets now =>
      simp only [MintState.applyEvent, MintState.createMintRecord]
      intro id r hr
      rw [lookupKey_setKey] at hr
      split_ifs at hr with hid
      · rw [Option.some.injEq] at hr
        subst hr
        simp
      · exact ih id r hr
    | update uid u now =>
      simp only [MintState.applyEvent]
      split
      · next p heq =>
        intro id r hr
        rw [MintState.updateMintRecord] at heq
        split at heq
        · exact absurd heq (by simp)
        · next record hlk =>
          simp only [Except.ok.injEq] at heq
          subst heq
          rw [lookupKey_setKey] at hr
          rcases eq_or_ne id uid with hid | hid
          · rw [if_pos hid, Option.some.injEq] at hr
            subst hr
            cases hstat : u.status with
            | some s => cases s <;> simp [UpdStatus.toStatus]
            | none => exact ih uid record hlk
          · rw [if_neg hid] at hr
            exact ih id r hr
      · exact ih

/-- C7 witness: the invariant applied to the two-event fixture trace
(create, then complete): the stored record is terminal and carries a
completion timestamp. -/
theorem c7_completedAt_iff_terminal_witness :
    mintTraceRec2.completedAt.isSome = true ↔
      mintTraceRec2.status ≠ .pending :=
  c7_completedAt_iff_terminal.1 mintTraceSt2
    (MintState.Reachable.step (MintState.Reachable.step MintState.Reachable.init
      (.create "bk" "T1" "ben" "10" [] "t0"))
      (.update "mint-T1" { status := some .completed } "t1"))
    "mint-T1" mintTraceRec2 (by decide)

/-- C7 counterexample: the record of the fixture trace has already
reached the terminal status `completed`, yet a further
`updateMintRecord` call succeeds and silently overwrites it with
status `failed` — the service does not prevent mutation after a
terminal state. -/
theorem c7_terminal_record_overwritten :
    (MintState.getMintRecord mintTraceSt2 "mint-T1").map MintRecord.status =
      some .completed ∧
    (MintState.updateMintRecord mintTraceSt2 "mint-T1"
        { status := some .failed } "t2").toOption.map (fun p => p.1.status) =
      some .failed ∧
    (MintState.updateMintRecord mintTraceSt2 "mint-T1"
        { status := some .failed } "t2").toOption.map
        (fun p => (MintState.getMintRecord p.2 "mint-T1").map
          MintRecord.status) =
      some (some .failed) := by
  refine ⟨by decide, by decide, by decide⟩

/-! ## Claim C9: `createMintRecord` silently replaces existing records -/

/-- C9: `createMintRecord` never raises a duplicate error (it is a
total function); even when a record — including one in a terminal
state — already exists under the derived id `mint-(transactionId)`,
the call succeeds and the map afterwards holds the fresh `pending`
record in its place. -/
theorem c9_create_mint_record_overwrites :
    ∀ (st : MintState.State) (basketId transactionId beneficiary
        amount : String) (assets : List MintedAsset) (now : String)
      (old : MintRecord),
      lookupKey st.mints ("mint-" ++ transactionId) = some old →
      lookupKey (MintState.createMintRecord st basketId transactionId
          beneficiary amount assets now).2.mints ("mint-" ++ transactionId) =
        some (MintState.createMintRecord st basketId transactionId
          beneficiary amount assets now).1 ∧
      (MintState.createMintRecord st basketId transactionId beneficiary
        amount assets now).1.status = .pending ∧
      (MintState.createMintRecord st basketId transactionId beneficiary
        amount assets now).1.completedAt = none := by
  intro st basketId transactionId beneficiary amount assets now old hold
  refine ⟨?_, rfl, rfl⟩
  rw [MintState.createMintRecord, lookupKey_setKey, if_pos rfl]

/-- C9 witness: replacing the completed record of the fixture trace
with a fresh pending record for the same transaction id. -/
theorem c9_create_mint_record_overwrites_witness :
    mintTraceRec2.status = .completed ∧
    lookupKey mintTraceSt2.mints ("mint-" ++ "T1") = some mintTraceRec2 ∧
    (lookupKey (MintState.createMintRecord mintTraceSt2 "bk" "T1" "ben2"
          "20" [] "t3").2.mints ("mint-" ++ "T1") =
        some (MintState.createMintRecord mintTraceSt2 "bk" "T1" "ben2"
          "20" [] "t3").1 ∧
      (MintState.createMintRecord mintTraceSt2 "bk" "T1" "ben2" "20" []
        "t3").1.status = .pending ∧
      (MintState.createMintRecord mintTraceSt2 "bk" "T1" "ben2" "20" []
        "t3").1.completedAt = none) :=
  ⟨by decide, by decide,
    c9_create_mint_record_overwrites mintTraceSt2 "bk" "T1" "ben2" "20" []
      "t3" mintTraceRec2 (by decide)⟩

/-- C5 witness: the gate characterization applied at concrete values —
with a valid POR flag, sufficient reserves and a passing policy draw
the request is accepted. -/
theorem c5_mint_gate_accepts_iff_witness :
    (checkMintEligibility true 5000000 1000 true).success = true :=
  (c5_mint_gate_accepts_iff true 5000000 1000 true 0 0).1.mpr
    ⟨rfl, by norm_num, rfl⟩
